import Mathlib

/-!
# MicroManager CNU log parser: a verification development

A shallow embedding of `src/parser.py` (WireStar-Networks/MicroManager).
The Python tool matches each log line against `line_regex`, extracts header
fields plus a list of per-channel measurement groups (`channel_regex.findall`),
and renders each matched record as a fixed text block.

The two regular expressions of the source are deterministic for the inputs the
tool handles: every greedy character class is immediately followed by a
delimiter excluded from that class, so a single left-to-right greedy scan is
the unique match and no backtracking can produce a different one.  We embed
the matcher as that deterministic scanner over `List Char`.  Character classes
are modelled at their ASCII core (the log format is ASCII): `\d` is `0-9`,
`\w` is alphanumeric or underscore, `\s` is the six ASCII whitespace
characters.  Lines are the unit of input: the driving loop feeds
`parse_cnu_line` strings with the trailing newline already stripped, so a line
never contains a newline character.
-/

namespace MicroManager

/-- ASCII core of Python's `\d`. -/
def isDigitC (c : Char) : Bool := c.isDigit

/-- ASCII core of Python's `\w`: letters, digits, underscore. -/
def isWordC (c : Char) : Bool := c.isAlphanum || c = '_'

/-- ASCII core of Python's `\s`: space, tab, newline, carriage return,
vertical tab, form feed. -/
def isSpaceC (c : Char) : Bool :=
  c = ' ' || c = '\t' || c = '\n' || c = '\r' || c = '\x0b' || c = '\x0c'

/-- Characters allowed in the timestamp and percent slots: `[\d\.]`. -/
def isTsC (c : Char) : Bool := c.isDigit || c = '.'

/-- Greedy scan of a character class: the longest prefix whose characters all
satisfy `p`, paired with the rest.  This is exactly how `X*` behaves in the
source regexes, where the following delimiter never satisfies `X`. -/
def spanP (p : Char → Bool) : List Char → List Char × List Char
  | [] => ([], [])
  | c :: cs =>
    if p c then
      let (t, r) := spanP p cs
      (c :: t, r)
    else ([], c :: cs)

/-- Greedy `X+`: like `spanP` but the matched prefix must be non-empty. -/
def many1P (p : Char → Bool) (cs : List Char) : Option (List Char × List Char) :=
  match spanP p cs with
  | ([], _) => none
  | (t, r) => some (t, r)

/-- Match one literal character. -/
def expectChar (c : Char) : List Char → Option (List Char)
  | [] => none
  | d :: rest => if d = c then some rest else none

/-- Match a literal character sequence. -/
def expectLit : List Char → List Char → Option (List Char)
  | [], cs => some cs
  | _ :: _, [] => none
  | l :: ls, c :: cs => if c = l then expectLit ls cs else none

/-- Python's `str.strip()` at its ASCII core: drop whitespace from both ends.
Applied by the source to the port-device and MAC captures. -/
def pyStrip (l : List Char) : List Char :=
  ((l.dropWhile isSpaceC).reverse.dropWhile isSpaceC).reverse

/-- The literal marker `per channel` of `line_regex`. -/
def markerChars : List Char := "per channel".data

/-- `.*?per channel` of `line_regex`: skip the shortest run of non-newline
characters up to the first occurrence of the literal `per channel`; return the
rest of the input after the marker.  `.` does not match a newline, so a
newline before the first marker occurrence makes the whole line fail. -/
def findMarker : List Char → Option (List Char)
  | [] => none
  | c :: cs =>
    match expectLit markerChars (c :: cs) with
    | some rest => some rest
    | none => if c = '\n' then none else findMarker cs

/-- `-?\d+` of `channel_regex`: an optional minus sign followed by digits,
kept as literal text, sign included. -/
def signedDigits : List Char → Option (List Char × List Char)
  | [] => none
  | c :: cs =>
    if c = '-' then
      match many1P isDigitC cs with
      | none => none
      | some (d, r) => some ('-' :: d, r)
    else
      match many1P isDigitC (c :: cs) with
      | none => none
      | some (d, r) => some (d, r)

/-- One per-channel measurement group (`channel_regex` captures), all fields
kept as captured text. -/
structure ChannelStat where
  bandIndex : List Char
  rxBitsPerSym : List Char
  rxPower : List Char
  rxSnr : List Char
  rxPhyRate : List Char
  txBitsPerSym : List Char
  txPhyRate : List Char
  deriving Repr, DecidableEq, Inhabited

/-- One matched log line (the dictionary built by `parse_cnu_line`), all
fields kept as captured text. -/
structure ParsedRecord where
  timestamp : List Char
  trace_level : List Char
  module : List Char
  function : List Char
  source_line : List Char
  moca_port : List Char
  moca_port_dev : List Char
  cnu_id : List Char
  cnu_mac : List Char
  source_type : List Char
  rx_good : List Char
  rx_bad : List Char
  rx_bad_percent : List Char
  channels : List ChannelStat
  deriving Repr, DecidableEq, Inhabited

/-- One attempt of `channel_regex` at the current position: the group shape
`<(\d+):\s*(\d+)/(-?\d+)/(\d+)/(\d+),(\d+)/(\d+)>`. -/
def matchChannel (cs0 : List Char) : Option (ChannelStat × List Char) :=
  match expectChar '<' cs0 with
  | none => none
  | some cs1 =>
  match many1P isDigitC cs1 with
  | none => none
  | some (b, cs2) =>
  match expectChar ':' cs2 with
  | none => none
  | some cs3 =>
  match many1P isDigitC (spanP isSpaceC cs3).2 with
  | none => none
  | some (rb, cs4) =>
  match expectChar '/' cs4 with
  | none => none
  | some cs5 =>
  match signedDigits cs5 with
  | none => none
  | some (pw, cs6) =>
  match expectChar '/' cs6 with
  | none => none
  | some cs7 =>
  match many1P isDigitC cs7 with
  | none => none
  | some (snr, cs8) =>
  match expectChar '/' cs8 with
  | none => none
  | some cs9 =>
  match many1P isDigitC cs9 with
  | none => none
  | some (rr, cs10) =>
  match expectChar ',' cs10 with
  | none => none
  | some cs11 =>
  match many1P isDigitC cs11 with
  | none => none
  | some (tb, cs12) =>
  match expectChar '/' cs12 with
  | none => none
  | some cs13 =>
  match many1P isDigitC cs13 with
  | none => none
  | some (tr, cs14) =>
  match expectChar '>' cs14 with
  | none => none
  | some cs15 =>
  some ({ bandIndex := b, rxBitsPerSym := rb, rxPower := pw, rxSnr := snr,
          rxPhyRate := rr, txBitsPerSym := tb, txPhyRate := tr }, cs15)

/-- `channel_regex.findall`: scan left to right, at each position try a match;
on success emit it and resume after it, otherwise advance one character.
A successful match always consumes at least one character, so fuel equal to
the input length never runs out. -/
def findChannels : Nat → List Char → List ChannelStat
  | 0, _ => []
  | _, [] => []
  | fuel + 1, c :: cs =>
    match matchChannel (c :: cs) with
    | some (ch, rest) => ch :: findChannels fuel rest
    | none => findChannels fuel cs

/-- The literal tag `<Rx Good/Bad,Percent` of `line_regex`. -/
def rxTagChars : List Char := "<Rx Good/Bad,Percent".data

/-- `parse_cnu_line` of the source: match the line against `line_regex`,
then collect the channel groups of the trailing segment with
`channel_regex.findall`.  Returns the record on a match and `none` on a
mismatch; there is no partial result.

`line_regex`, step by step (capture group numbers of the source):
`^\s*` leading whitespace; `(\d+):` (1) identifier, unused; `([\d\.]+):`
(2) timestamp; `(\w+):` (3) trace level; `(\w+):` (4) module;
`\s*([^\s:]+)\s*:\s*` (5) function; `(\d+):\s*` (6) source line;
`<(\d+):([^>]+)>,<(\d+),([^>]+)>,<(\d+)>\s*` (7) port, (8) port device
— stripped, (9) CNU id, (10) MAC — stripped, (11) source type;
`<Rx Good/Bad,Percent\s+(\d+)\/\s+(\d+),\s+([\d\.]+)%>` (12) good,
(13) bad, (14) percent; `.*?per channel\s*(.*)$` (15) channel segment.
Each greedy class is followed by a delimiter excluded from it, so the greedy
scan below is the unique match of the regex. -/
def parse_cnu_line (line : List Char) : Option ParsedRecord :=
  match many1P isDigitC (spanP isSpaceC line).2 with
  | none => none
  | some (_ident, cs1) =>
  match expectChar ':' cs1 with
  | none => none
  | some cs2 =>
  match many1P isTsC cs2 with
  | none => none
  | some (ts, cs3) =>
  match expectChar ':' cs3 with
  | none => none
  | some cs4 =>
  match many1P isWordC cs4 with
  | none => none
  | some (lvl, cs5) =>
  match expectChar ':' cs5 with
  | none => none
  | some cs6 =>
  match many1P isWordC cs6 with
  | none => none
  | some (mdl, cs7) =>
  match expectChar ':' cs7 with
  | none => none
  | some cs8 =>
  match many1P (fun c => !isSpaceC c && c ≠ ':') (spanP isSpaceC cs8).2 with
  | none => none
  | some (fn, cs9) =>
  match expectChar ':' (spanP isSpaceC cs9).2 with
  | none => none
  | some cs10 =>
  match many1P isDigitC (spanP isSpaceC cs10).2 with
  | none => none
  | some (srcline, cs11) =>
  match expectChar ':' cs11 with
  | none => none
  | some cs12 =>
  match expectChar '<' (spanP isSpaceC cs12).2 with
  | none => none
  | some cs13 =>
  match many1P isDigitC cs13 with
  | none => none
  | some (port, cs14) =>
  match expectChar ':' cs14 with
  | none => none
  | some cs15 =>
  match many1P (fun c => c ≠ '>') cs15 with
  | none => none
  | some (dev, cs16) =>
  match expectLit ">,<".data cs16 with
  | none => none
  | some cs17 =>
  match many1P isDigitC cs17 with
  | none => none
  | some (cnuId, cs18) =>
  match expectChar ',' cs18 with
  | none => none
  | some cs19 =>
  match many1P (fun c => c ≠ '>') cs19 with
  | none => none
  | some (mac, cs20) =>
  match expectLit ">,<".data cs20 with
  | none => none
  | some cs21 =>
  match many1P isDigitC cs21 with
  | none => none
  | some (stype, cs22) =>
  match expectChar '>' cs22 with
  | none => none
  | some cs23 =>
  match expectLit rxTagChars (spanP isSpaceC cs23).2 with
  | none => none
  | some cs24 =>
  match many1P isSpaceC cs24 with
  | none => none
  | some (_, cs25) =>
  match many1P isDigitC cs25 with
  | none => none
  | some (good, cs26) =>
  match expectChar '/' cs26 with
  | none => none
  | some cs27 =>
  match many1P isSpaceC cs27 with
  | none => none
  | some (_, cs28) =>
  match many1P isDigitC cs28 with
  | none => none
  | some (bad, cs29) =>
  match expectChar ',' cs29 with
  | none => none
  | some cs30 =>
  match many1P isSpaceC cs30 with
  | none => none
  | some (_, cs31) =>
  match many1P isTsC cs31 with
  | none => none
  | some (pct, cs32) =>
  match expectLit "%>".data cs32 with
  | none => none
  | some cs33 =>
  match findMarker cs33 with
  | none => none
  | some cs34 =>
  match spanP (fun c => c ≠ '\n') (spanP isSpaceC cs34).2 with
  | (chanPart, rest) =>
  if rest = [] ∨ rest = ['\n'] then
    some { timestamp := ts, trace_level := lvl, module := mdl, function := fn,
           source_line := srcline, moca_port := port,
           moca_port_dev := pyStrip dev, cnu_id := cnuId,
           cnu_mac := pyStrip mac, source_type := stype, rx_good := good,
           rx_bad := bad, rx_bad_percent := pct,
           channels := findChannels chanPart.length chanPart }
  else none

/-- The dividing line written before and after every record block
(copied verbatim from the source). -/
def divider : List Char := "---------------------------------------------------".data

/-- One rendered channel line of the report (`main`, channel loop). -/
def renderChannelLine (ch : ChannelStat) : List Char :=
  "  BandIndex: ".data ++ ch.bandIndex ++ " | RX bits/sym: ".data ++ ch.rxBitsPerSym
    ++ " | Power: ".data ++ ch.rxPower ++ " dBm? | SNR: ".data ++ ch.rxSnr
    ++ " dB | RX PHY: ".data ++ ch.rxPhyRate ++ " Mbps | TX bits/sym: ".data
    ++ ch.txBitsPerSym ++ " | TX PHY: ".data ++ ch.txPhyRate ++ " Mbps".data

/-- The `Source:` line of the report: `Micronode` exactly when the captured
`source_type` is the string `0`, otherwise `CNU`. -/
def renderSource (r : ParsedRecord) : List Char :=
  "Source:     ".data ++ (if r.source_type = ['0'] then "Micronode".data else "CNU".data)

/-- The block `main` writes for one matched record, as a list of output lines
(each `out_f.write` emits one newline-terminated line). -/
def renderRecord (r : ParsedRecord) : List (List Char) :=
  [divider,
   "Timestamp:  ".data ++ r.timestamp,
   "Level:      ".data ++ r.trace_level,
   "Module:     ".data ++ r.module,
   "Function:   ".data ++ r.function,
   "Line:       ".data ++ r.source_line,
   "MoCA Port:  ".data ++ r.moca_port ++ " (".data ++ r.moca_port_dev ++ ")".data,
   "CNU ID:     ".data ++ r.cnu_id,
   "CNU MAC:    ".data ++ r.cnu_mac,
   renderSource r,
   "Rx Good:    ".data ++ r.rx_good,
   "Rx Bad:     ".data ++ r.rx_bad,
   "Rx % Bad:   ".data ++ r.rx_bad_percent,
   "Channel Stats:".data]
  ++ r.channels.map renderChannelLine
  ++ [divider]

/-- Header line of the trailing debug section. -/
def debugHeader : List Char := "=== DEBUG MODE: NO MATCH LINES ===".data

/-- The trailing debug section: nothing when no line was rejected, otherwise
a blank line (the leading newline of the section's first write), the header,
and one `NO MATCH:` line per rejected input line in encounter order. -/
def noMatchSection (rejected : List (List Char)) : List (List Char) :=
  if rejected = [] then []
  else [] :: debugHeader :: rejected.map (fun l => "NO MATCH: ".data ++ l)

/-- The processing loop of `main` over the (newline-stripped) input lines,
as the list of output lines it writes: each matched line contributes its
rendered block immediately, rejected lines are collected and emitted in the
debug section only when the debug flag is set and at least one line was
rejected. -/
def mainOutput (lines : List (List Char)) (debug : Bool) : List (List Char) :=
  (lines.flatMap fun l =>
    match parse_cnu_line l with
    | some r => renderRecord r
    | none => []) ++
  (if debug then noMatchSection (lines.filter fun l => (parse_cnu_line l).isNone)
   else [])

/-! ## Basic lemmas about the scanning primitives -/

/-- The first character of `l`, if any, fails `p`: the condition under which
a greedy class scan stops exactly at the start of `l`. -/
def headNotSat (p : Char → Bool) : List Char → Prop
  | [] => True
  | c :: _ => p c = false

theorem headNotSat_nil (p : Char → Bool) : headNotSat p [] := trivial

theorem headNotSat_cons {p : Char → Bool} {c : Char} (rest : List Char)
    (h : p c = false) : headNotSat p (c :: rest) := h

theorem headNotSat_append {p q : Char → Bool} {xs : List Char}
    (himp : ∀ c, q c = true → p c = false) (h1 : xs.all q = true)
    (h0 : xs ≠ []) (ys : List Char) : headNotSat p (xs ++ ys) := by
  cases xs with
  | nil => exact absurd rfl h0
  | cons c t =>
    simp only [List.all_cons, Bool.and_eq_true] at h1
    exact headNotSat_cons _ (himp c h1.1)

theorem spanP_none {p : Char → Bool} {ys : List Char} (h : headNotSat p ys) :
    spanP p ys = ([], ys) := by
  cases ys with
  | nil => rfl
  | cons c t =>
    simp only [headNotSat] at h
    simp [spanP, h]

theorem spanP_eq {p : Char → Bool} {xs ys : List Char}
    (h1 : xs.all p = true) (h2 : headNotSat p ys) :
    spanP p (xs ++ ys) = (xs, ys) := by
  induction xs with
  | nil => simpa using spanP_none h2
  | cons c t ih =>
    simp only [List.all_cons, Bool.and_eq_true] at h1
    simp [spanP, h1.1, ih h1.2]

theorem spanP_all {p : Char → Bool} {l : List Char} (h1 : l.all p = true) :
    spanP p l = (l, []) := by
  simpa using spanP_eq h1 (headNotSat_nil p)

theorem spanP_one {p : Char → Bool} {c : Char} {ys : List Char}
    (hc : p c = true) (h2 : headNotSat p ys) : spanP p (c :: ys) = ([c], ys) := by
  simpa using @spanP_eq p [c] ys (by simp [hc]) h2

theorem many1P_eq {p : Char → Bool} {xs ys : List Char}
    (h1 : xs.all p = true) (h0 : xs ≠ []) (h2 : headNotSat p ys) :
    many1P p (xs ++ ys) = some (xs, ys) := by
  unfold many1P
  rw [spanP_eq h1 h2]
  cases xs with
  | nil => exact absurd rfl h0
  | cons c t => rfl

theorem many1P_one {p : Char → Bool} {c : Char} {ys : List Char}
    (hc : p c = true) (h2 : headNotSat p ys) :
    many1P p (c :: ys) = some ([c], ys) := by
  simpa using @many1P_eq p [c] ys (by simp [hc]) (by simp) h2

theorem many1P_none {p : Char → Bool} {ys : List Char} (h : headNotSat p ys) :
    many1P p ys = none := by
  simp [many1P, spanP_none h]

theorem expectChar_eq (c : Char) (rest : List Char) :
    expectChar c (c :: rest) = some rest := by
  simp [expectChar]

theorem expectLit_eq (l : List Char) : ∀ rest, expectLit l (l ++ rest) = some rest := by
  induction l with
  | nil => intro rest; rfl
  | cons c t ih => intro rest; simp [expectLit, ih]

/-! ## Character class facts -/

theorem digit_not_space : ∀ c, isDigitC c = true → isSpaceC c = false := by
  intro c h
  cases hs : isSpaceC c with
  | false => rfl
  | true =>
    have hc : c = ' ' ∨ c = '\t' ∨ c = '\n' ∨ c = '\r' ∨ c = '\x0b' ∨ c = '\x0c' := by
      simpa [isSpaceC, or_assoc] using hs
    rcases hc with h1 | h1 | h1 | h1 | h1 | h1 <;> subst h1 <;>
      exact absurd h (by decide)

theorem tsC_not_space : ∀ c, isTsC c = true → isSpaceC c = false := by
  intro c h
  simp only [isTsC, Bool.or_eq_true, decide_eq_true_eq] at h
  rcases h with h | h
  · exact digit_not_space c h
  · subst h; decide

theorem fnC_not_space :
    ∀ c, (fun c => !isSpaceC c && decide (c ≠ ':')) c = true → isSpaceC c = false := by
  intro c h
  simp only [Bool.and_eq_true, Bool.not_eq_true'] at h
  exact h.1

theorem all_mono {p q : Char → Bool} {xs : List Char}
    (himp : ∀ c, q c = true → p c = true) (h : xs.all q = true) :
    xs.all p = true := by
  simp only [List.all_eq_true] at h ⊢
  exact fun c hc => himp c (h c hc)

theorem digit_ne_nl : ∀ c, isDigitC c = true → decide (c ≠ '\n') = true := by
  intro c h
  rw [decide_eq_true_eq]
  intro heq
  subst heq
  exact absurd h (by decide)

/-! ## Round trip for the channel grammar -/

theorem digitC_colon : isDigitC ':' = false := by decide
theorem digitC_slash : isDigitC '/' = false := by decide
theorem digitC_comma : isDigitC ',' = false := by decide
theorem digitC_gt : isDigitC '>' = false := by decide

/-- Conformance of a text to the `-?\d+` slot of the channel grammar. -/
def signedOkB : List Char → Bool
  | [] => false
  | c :: cs => if c = '-' then !cs.isEmpty && cs.all isDigitC else (c :: cs).all isDigitC

/-- A `ChannelStat` whose field texts conform to the channel grammar, so that
the group it renders to is parsed back verbatim. -/
structure GoodChan (c : ChannelStat) : Prop where
  b_all : c.bandIndex.all isDigitC = true
  b_ne : c.bandIndex ≠ []
  rb_all : c.rxBitsPerSym.all isDigitC = true
  rb_ne : c.rxBitsPerSym ≠ []
  pw_ok : signedOkB c.rxPower = true
  snr_all : c.rxSnr.all isDigitC = true
  snr_ne : c.rxSnr ≠ []
  rr_all : c.rxPhyRate.all isDigitC = true
  rr_ne : c.rxPhyRate ≠ []
  tb_all : c.txBitsPerSym.all isDigitC = true
  tb_ne : c.txBitsPerSym ≠ []
  tr_all : c.txPhyRate.all isDigitC = true
  tr_ne : c.txPhyRate ≠ []

/-- The literal text of one channel group, exactly as the device firmware
emits it: `<b:rb/pw/snr/rr,tb/tr>`. -/
def renderChanGroup (c : ChannelStat) : List Char :=
  '<' :: c.bandIndex ++ ':' :: c.rxBitsPerSym ++ '/' :: c.rxPower ++ '/' :: c.rxSnr
    ++ '/' :: c.rxPhyRate ++ ',' :: c.txBitsPerSym ++ '/' :: c.txPhyRate ++ ['>']

/-- The channel-data segment formed by a sequence of channel groups. -/
def renderChanGroups : List ChannelStat → List Char
  | [] => []
  | c :: t => renderChanGroup c ++ renderChanGroups t

theorem signedDigits_eq {pw ys : List Char} (h : signedOkB pw = true)
    (h2 : headNotSat isDigitC ys) : signedDigits (pw ++ ys) = some (pw, ys) := by
  cases pw with
  | nil => exact absurd h (by decide)
  | cons c cs =>
    by_cases hc : c = '-'
    · subst hc
      have h' : (!cs.isEmpty && cs.all isDigitC) = true := by simpa [signedOkB] using h
      rw [Bool.and_eq_true] at h'; obtain ⟨h1, hall⟩ := h'
      have hcs : cs ≠ [] := by
        cases cs with
        | nil => exact absurd h1 (by decide)
        | cons d ds => exact List.cons_ne_nil d ds
      show signedDigits ('-' :: (cs ++ ys)) = some ('-' :: cs, ys)
      rw [signedDigits, if_pos rfl, many1P_eq hall hcs h2]
    · have hall : (c :: cs).all isDigitC = true := by simpa [signedOkB, hc] using h
      show signedDigits (c :: (cs ++ ys)) = some (c :: cs, ys)
      rw [signedDigits, if_neg hc, show c :: (cs ++ ys) = (c :: cs) ++ ys from rfl,
        many1P_eq hall (List.cons_ne_nil c cs) h2]

theorem matchChannel_render (c : ChannelStat) (rest : List Char) (h : GoodChan c) :
    matchChannel (renderChanGroup c ++ rest) = some (c, rest) := by
  obtain ⟨hb1, hb0, hrb1, hrb0, hpw, hsnr1, hsnr0, hrr1, hrr0, htb1, htb0, htr1, htr0⟩ := h
  have hspan : ∀ ys, spanP isSpaceC (c.rxBitsPerSym ++ ys) = ([], c.rxBitsPerSym ++ ys) :=
    fun ys => spanP_none (headNotSat_append digit_not_space hrb1 hrb0 ys)
  simp only [matchChannel, renderChanGroup, List.cons_append, List.append_assoc,
    List.nil_append, List.singleton_append,
    expectChar_eq, hspan, signedDigits_eq hpw,
    many1P_eq hb1 hb0, many1P_eq hrb1 hrb0, many1P_eq hsnr1 hsnr0,
    many1P_eq hrr1 hrr0, many1P_eq htb1 htb0, many1P_eq htr1 htr0,
    headNotSat, digitC_colon, digitC_slash, digitC_comma, digitC_gt]

theorem renderChanGroups_headNot (chs : List ChannelStat) :
    headNotSat isSpaceC (renderChanGroups chs) := by
  cases chs with
  | nil => exact trivial
  | cons c t =>
    simp only [renderChanGroups, renderChanGroup, List.cons_append]
    exact headNotSat_cons _ (by decide)

theorem signedOk_no_nl {l : List Char} (h : signedOkB l = true) :
    l.all (fun c => decide (c ≠ '\n')) = true := by
  cases l with
  | nil => rfl
  | cons c cs =>
    by_cases hc : c = '-'
    · subst hc
      have h' : (!cs.isEmpty && cs.all isDigitC) = true := by simpa [signedOkB] using h
      rw [Bool.and_eq_true] at h'; obtain ⟨_, hall⟩ := h'
      simp only [List.all_cons, Bool.and_eq_true, decide_eq_true_eq]
      exact ⟨by decide, all_mono digit_ne_nl hall⟩
    · have hall : (c :: cs).all isDigitC = true := by simpa [signedOkB, hc] using h
      exact all_mono digit_ne_nl hall

theorem renderChanGroups_no_nl (chs : List ChannelStat)
    (h : ∀ c ∈ chs, GoodChan c) :
    (renderChanGroups chs).all (fun c => decide (c ≠ '\n')) = true := by
  induction chs with
  | nil => rfl
  | cons c t ih =>
    obtain ⟨hb1, hb0, hrb1, hrb0, hpw, hsnr1, hsnr0, hrr1, hrr0, htb1, htb0, htr1, htr0⟩ :=
      h c (List.mem_cons_self c t)
    simp only [renderChanGroups, renderChanGroup, List.cons_append, List.append_assoc,
      List.singleton_append, List.all_append, List.all_cons, Bool.and_eq_true,
      decide_eq_true_eq]
    repeat' constructor
    all_goals first
      | decide
      | exact all_mono digit_ne_nl hb1
      | exact all_mono digit_ne_nl hrb1
      | exact signedOk_no_nl hpw
      | exact all_mono digit_ne_nl hsnr1
      | exact all_mono digit_ne_nl hrr1
      | exact all_mono digit_ne_nl htb1
      | exact all_mono digit_ne_nl htr1
      | exact ih (fun x hx => h x (List.mem_cons_of_mem c hx))

theorem findChannels_render : ∀ (chs : List ChannelStat),
    (∀ c ∈ chs, GoodChan c) → ∀ fuel, (renderChanGroups chs).length ≤ fuel →
    findChannels fuel (renderChanGroups chs) = chs := by
  intro chs
  induction chs with
  | nil => intro _ fuel _; cases fuel <;> rfl
  | cons c t ih =>
    intro h fuel hlen
    cases fuel with
    | zero => simp [renderChanGroups, renderChanGroup] at hlen
    | succ f =>
      have hm := matchChannel_render c (renderChanGroups t) (h c (List.mem_cons_self c t))
      have hrec : findChannels f (renderChanGroups t) = t := by
        refine ih (fun x hx => h x (List.mem_cons_of_mem c hx)) f ?_
        simp only [renderChanGroups, renderChanGroup, List.length_append,
          List.length_cons] at hlen ⊢
        omega
      simp only [renderChanGroups, renderChanGroup, List.cons_append,
        List.append_assoc, List.nil_append, List.singleton_append] at hm ⊢
      rw [findChannels, hm]
      show c :: findChannels f (renderChanGroups t) = c :: t
      rw [hrec]

/-! ## Round trip for the header grammar -/

theorem tsC_colon : isTsC ':' = false := by decide
theorem tsC_pct : isTsC '%' = false := by decide
theorem wordC_colon : isWordC ':' = false := by decide
theorem fnC_colon : (fun c => !isSpaceC c && c ≠ ':') ':' = false := by decide
theorem devC_gt : (fun c => c ≠ '>') '>' = false := by decide
theorem spaceC_colon : isSpaceC ':' = false := by decide
theorem spaceC_lt : isSpaceC '<' = false := by decide
theorem spaceC_space : isSpaceC ' ' = true := by decide

theorem expectLit_gtcommalt (rest : List Char) :
    expectLit ['>', ',', '<'] ('>' :: ',' :: '<' :: rest) = some rest :=
  expectLit_eq ['>', ',', '<'] rest

theorem expectLit_pctgt (rest : List Char) :
    expectLit ['%', '>'] ('%' :: '>' :: rest) = some rest :=
  expectLit_eq ['%', '>'] rest

theorem rxTag_headNot (ys : List Char) : headNotSat isSpaceC (rxTagChars ++ ys) :=
  headNotSat_cons _ (by decide)

theorem headNot_digit_colon (ys : List Char) : headNotSat isDigitC (':' :: ys) :=
  headNotSat_cons _ (by decide)
theorem headNot_digit_slash (ys : List Char) : headNotSat isDigitC ('/' :: ys) :=
  headNotSat_cons _ (by decide)
theorem headNot_digit_comma (ys : List Char) : headNotSat isDigitC (',' :: ys) :=
  headNotSat_cons _ (by decide)
theorem headNot_digit_gt (ys : List Char) : headNotSat isDigitC ('>' :: ys) :=
  headNotSat_cons _ (by decide)
theorem headNot_ts_colon (ys : List Char) : headNotSat isTsC (':' :: ys) :=
  headNotSat_cons _ (by decide)
theorem headNot_ts_pct (ys : List Char) : headNotSat isTsC ('%' :: ys) :=
  headNotSat_cons _ (by decide)
theorem headNot_word_colon (ys : List Char) : headNotSat isWordC (':' :: ys) :=
  headNotSat_cons _ (by decide)
theorem headNot_fn_colon (ys : List Char) :
    headNotSat (fun c => !isSpaceC c && c ≠ ':') (':' :: ys) :=
  headNotSat_cons _ (by decide)
theorem headNot_dev_gt (ys : List Char) :
    headNotSat (fun c => c ≠ '>') ('>' :: ys) :=
  headNotSat_cons _ (by decide)
theorem headNot_space_colon (ys : List Char) : headNotSat isSpaceC (':' :: ys) :=
  headNotSat_cons _ (by decide)
theorem headNot_space_lt (ys : List Char) : headNotSat isSpaceC ('<' :: ys) :=
  headNotSat_cons _ (by decide)

theorem expectLit_cons_ne {l c : Char} {ls cs : List Char} (hc : c ≠ l) :
    expectLit (l :: ls) (c :: cs) = none := by
  rw [expectLit, if_neg hc]

theorem findMarker_marker (rest : List Char) :
    findMarker (markerChars ++ rest) = some rest := by
  have hlit : expectLit markerChars
      ('p' :: 'e' :: 'r' :: ' ' :: 'c' :: 'h' :: 'a' :: 'n' :: 'n' :: 'e' :: 'l' :: rest) =
      some rest := expectLit_eq markerChars rest
  show findMarker
      ('p' :: 'e' :: 'r' :: ' ' :: 'c' :: 'h' :: 'a' :: 'n' :: 'n' :: 'e' :: 'l' :: rest) =
      some rest
  rw [findMarker, hlit]

theorem findMarker_eq : ∀ (skip : List Char), ∀ rest : List Char,
    skip.all (fun c => decide (c ≠ 'p') && decide (c ≠ '\n')) = true →
    findMarker (skip ++ (markerChars ++ rest)) = some rest := by
  intro skip
  induction skip with
  | nil => intro rest _; exact findMarker_marker rest
  | cons c t ih =>
    intro rest h
    simp only [List.all_cons, Bool.and_eq_true, decide_eq_true_eq] at h
    obtain ⟨⟨hp1, hn1⟩, hrest⟩ := h
    have hlit : expectLit markerChars (c :: (t ++ (markerChars ++ rest))) = none :=
      expectLit_cons_ne hp1
    show findMarker (c :: (t ++ (markerChars ++ rest))) = some rest
    rw [findMarker, hlit, if_neg hn1]
    exact ih rest (by simp only [List.all_eq_true] at hrest ⊢; exact hrest)

/-- The raw texts injected into each slot of a synthetically constructed
header line. -/
structure HeaderParts where
  ident : List Char
  ts : List Char
  lvl : List Char
  mdl : List Char
  fn : List Char
  srcline : List Char
  port : List Char
  dev : List Char
  cnuId : List Char
  mac : List Char
  stype : List Char
  good : List Char
  bad : List Char
  pct : List Char
  filler : List Char

/-- Conformance of the injected texts to the header grammar: each slot is a
non-empty run of its character class, the bracket texts carry no `>` and are
unchanged by stripping, and the filler between the Rx tag and the
`per channel` marker contains no `p` (so the marker's first occurrence is the
injected one) and no newline. -/
structure GoodHeader (p : HeaderParts) : Prop where
  ident_all : p.ident.all isDigitC = true
  ident_ne : p.ident ≠ []
  ts_all : p.ts.all isTsC = true
  ts_ne : p.ts ≠ []
  lvl_all : p.lvl.all isWordC = true
  lvl_ne : p.lvl ≠ []
  mdl_all : p.mdl.all isWordC = true
  mdl_ne : p.mdl ≠ []
  fn_all : p.fn.all (fun c => !isSpaceC c && c ≠ ':') = true
  fn_ne : p.fn ≠ []
  src_all : p.srcline.all isDigitC = true
  src_ne : p.srcline ≠ []
  port_all : p.port.all isDigitC = true
  port_ne : p.port ≠ []
  dev_all : p.dev.all (fun c => c ≠ '>') = true
  dev_ne : p.dev ≠ []
  dev_strip : pyStrip p.dev = p.dev
  cnu_all : p.cnuId.all isDigitC = true
  cnu_ne : p.cnuId ≠ []
  mac_all : p.mac.all (fun c => c ≠ '>') = true
  mac_ne : p.mac ≠ []
  mac_strip : pyStrip p.mac = p.mac
  stype_all : p.stype.all isDigitC = true
  stype_ne : p.stype ≠ []
  good_all : p.good.all isDigitC = true
  good_ne : p.good ≠ []
  bad_all : p.bad.all isDigitC = true
  bad_ne : p.bad ≠ []
  pct_all : p.pct.all isTsC = true
  pct_ne : p.pct ≠ []
  filler_ok : p.filler.all (fun c => decide (c ≠ 'p') && decide (c ≠ '\n')) = true

/-- A synthetic log line built from injected header texts and channel groups,
conforming to the header+channel grammar of `line_regex`/`channel_regex`. -/
def mkLine (p : HeaderParts) (chs : List ChannelStat) : List Char :=
  p.ident ++ ':' :: p.ts ++ ':' :: p.lvl ++ ':' :: p.mdl ++ ':' :: p.fn ++ ':' :: p.srcline
    ++ ':' :: ' ' :: '<' :: p.port ++ ':' :: p.dev ++ '>' :: ',' :: '<' :: p.cnuId
    ++ ',' :: p.mac ++ '>' :: ',' :: '<' :: p.stype ++ '>' :: ' ' :: rxTagChars
    ++ ' ' :: p.good ++ '/' :: ' ' :: p.bad ++ ',' :: ' ' :: p.pct ++ '%' :: '>'
    :: ' ' :: p.filler ++ markerChars ++ ' ' :: renderChanGroups chs

/-- The record produced by parsing a synthetic line: every field is the
injected text, and the channel list is the injected sequence. -/
def mkRecord (p : HeaderParts) (chs : List ChannelStat) : ParsedRecord :=
  { timestamp := p.ts, trace_level := p.lvl, module := p.mdl, function := p.fn,
    source_line := p.srcline, moca_port := p.port, moca_port_dev := p.dev,
    cnu_id := p.cnuId, cnu_mac := p.mac, source_type := p.stype,
    rx_good := p.good, rx_bad := p.bad, rx_bad_percent := p.pct, channels := chs }

theorem parse_mkLine (p : HeaderParts) (chs : List ChannelStat)
    (hp : GoodHeader p) (hchs : ∀ c ∈ chs, GoodChan c) :
    parse_cnu_line (mkLine p chs) = some (mkRecord p chs) := by
  have hspanIdent : ∀ ys, spanP isSpaceC (p.ident ++ ys) = ([], p.ident ++ ys) :=
    fun ys => spanP_none (headNotSat_append digit_not_space hp.ident_all hp.ident_ne ys)
  have hspanFn : ∀ ys, spanP isSpaceC (p.fn ++ ys) = ([], p.fn ++ ys) :=
    fun ys => spanP_none (headNotSat_append fnC_not_space hp.fn_all hp.fn_ne ys)
  have hspanSrc : ∀ ys, spanP isSpaceC (p.srcline ++ ys) = ([], p.srcline ++ ys) :=
    fun ys => spanP_none (headNotSat_append digit_not_space hp.src_all hp.src_ne ys)
  have hnsGood : ∀ ys, headNotSat isSpaceC (p.good ++ ys) :=
    headNotSat_append digit_not_space hp.good_all hp.good_ne
  have hnsBad : ∀ ys, headNotSat isSpaceC (p.bad ++ ys) :=
    headNotSat_append digit_not_space hp.bad_all hp.bad_ne
  have hnsPct : ∀ ys, headNotSat isSpaceC (p.pct ++ ys) :=
    headNotSat_append tsC_not_space hp.pct_all hp.pct_ne
  have hfm : findMarker (' ' :: (p.filler ++ (markerChars ++ (' ' :: renderChanGroups chs))))
      = some (' ' :: renderChanGroups chs) := by
    refine findMarker_eq (' ' :: p.filler) _ ?_
    simp only [List.all_cons, Bool.and_eq_true, decide_eq_true_eq]
    refine ⟨⟨by decide, by decide⟩, ?_⟩
    simpa only [List.all_eq_true] using hp.filler_ok
  have hsegall := renderChanGroups_no_nl chs hchs
  have hspanSeg : spanP (fun c => decide (c ≠ '\n')) (renderChanGroups chs)
      = (renderChanGroups chs, []) := spanP_all hsegall
  have hfc : findChannels (renderChanGroups chs).length (renderChanGroups chs) = chs :=
    findChannels_render chs hchs (renderChanGroups chs).length le_rfl
  simp only [parse_cnu_line, mkLine, mkRecord, List.cons_append, List.append_assoc,
    List.nil_append, List.singleton_append,
    hspanIdent, hspanFn, hspanSrc, spanP_none, spanP_one, many1P_one,
    many1P_eq hp.ident_all hp.ident_ne, many1P_eq hp.ts_all hp.ts_ne,
    many1P_eq hp.lvl_all hp.lvl_ne, many1P_eq hp.mdl_all hp.mdl_ne,
    many1P_eq hp.fn_all hp.fn_ne, many1P_eq hp.src_all hp.src_ne,
    many1P_eq hp.port_all hp.port_ne, many1P_eq hp.dev_all hp.dev_ne,
    many1P_eq hp.cnu_all hp.cnu_ne, many1P_eq hp.mac_all hp.mac_ne,
    many1P_eq hp.stype_all hp.stype_ne, many1P_eq hp.good_all hp.good_ne,
    many1P_eq hp.bad_all hp.bad_ne, many1P_eq hp.pct_all hp.pct_ne,
    hnsGood, hnsBad, hnsPct, rxTag_headNot, renderChanGroups_headNot,
    expectChar_eq, expectLit_eq, expectLit_gtcommalt, expectLit_pctgt, hfm,
    headNot_digit_colon, headNot_digit_slash, headNot_digit_comma, headNot_digit_gt,
    headNot_ts_colon, headNot_ts_pct, headNot_word_colon, headNot_fn_colon,
    headNot_dev_gt, headNot_space_colon, headNot_space_lt, spaceC_space,
    hp.dev_strip, hp.mac_strip, hspanSeg, hfc]
  rw [if_pos (Or.inl trivial)]

/-! ## Concrete example lines -/

/-- The example line exactly as written in the specification: the second
angle-bracket group is `<7:AA:BB:CC:DD:EE:FF>`, with a colon after the
CNU id. -/
def exLineSpec : List Char :=
  "12:1699999999.123:INFO:moca:handleCnuStats:45: <2:eth0>,<7:AA:BB:CC:DD:EE:FF>,<1> <Rx Good/Bad,Percent 100/ 2, 1.96%> blah per channel <0:4/-3/30/100,4/200><1:5/2/28/90,3/180>".data

/-- The specification's example line with the second angle-bracket group in
the shape the grammar demands, `<7,AA:BB:CC:DD:EE:FF>`: a comma between the
CNU id and the MAC, as in `<(\d+),([^>]+)>`. -/
def exLineFixed : List Char :=
  "12:1699999999.123:INFO:moca:handleCnuStats:45: <2:eth0>,<7,AA:BB:CC:DD:EE:FF>,<1> <Rx Good/Bad,Percent 100/ 2, 1.96%> blah per channel <0:4/-3/30/100,4/200><1:5/2/28/90,3/180>".data

/-- First channel group of the example line. -/
def exCh0 : ChannelStat :=
  ⟨"0".data, "4".data, "-3".data, "30".data, "100".data, "4".data, "200".data⟩

/-- Second channel group of the example line. -/
def exCh1 : ChannelStat :=
  ⟨"1".data, "5".data, "2".data, "28".data, "90".data, "3".data, "180".data⟩

/-- The record the corrected example line parses to. -/
def exRecord : ParsedRecord :=
  ⟨"1699999999.123".data, "INFO".data, "moca".data, "handleCnuStats".data,
   "45".data, "2".data, "eth0".data, "7".data, "AA:BB:CC:DD:EE:FF".data,
   "1".data, "100".data, "2".data, "1.96".data, [exCh0, exCh1]⟩

/-- The injected header texts of the corrected example line. -/
def exParts : HeaderParts :=
  ⟨"12".data, "1699999999.123".data, "INFO".data, "moca".data,
   "handleCnuStats".data, "45".data, "2".data, "eth0".data, "7".data,
   "AA:BB:CC:DD:EE:FF".data, "1".data, "100".data, "2".data, "1.96".data,
   "blah ".data⟩

theorem exParts_good : GoodHeader exParts := by
  constructor <;> decide

set_option maxRecDepth 4096 in
/-- The synthetic line generator reproduces the corrected example line from
its injected texts and channel groups. -/
theorem mkLine_exParts : mkLine exParts [exCh0, exCh1] = exLineFixed := by decide

theorem exChans_good : ∀ c ∈ [exCh0, exCh1], GoodChan c := by
  intro c hc
  rcases List.mem_cons.mp hc with h | hc
  · subst h; constructor <;> decide
  rcases List.mem_cons.mp hc with h | hc
  · subst h; constructor <;> decide
  · cases hc

/-- The corrected example line with the colon after the module field
(`moca`) deleted. -/
def exLineDelColon : List Char :=
  "12:1699999999.123:INFO:mocahandleCnuStats:45: <2:eth0>,<7,AA:BB:CC:DD:EE:FF>,<1> <Rx Good/Bad,Percent 100/ 2, 1.96%> blah per channel <0:4/-3/30/100,4/200><1:5/2/28/90,3/180>".data

/-- The corrected example line with the comma between the first and second
angle-bracket groups deleted. -/
def exLineDelComma : List Char :=
  "12:1699999999.123:INFO:moca:handleCnuStats:45: <2:eth0><7,AA:BB:CC:DD:EE:FF>,<1> <Rx Good/Bad,Percent 100/ 2, 1.96%> blah per channel <0:4/-3/30/100,4/200><1:5/2/28/90,3/180>".data

/-- The corrected example line with the `<` of the Rx tag deleted. -/
def exLineDelLt : List Char :=
  "12:1699999999.123:INFO:moca:handleCnuStats:45: <2:eth0>,<7,AA:BB:CC:DD:EE:FF>,<1> Rx Good/Bad,Percent 100/ 2, 1.96%> blah per channel <0:4/-3/30/100,4/200><1:5/2/28/90,3/180>".data

/-- The corrected example line with the timestamp slot holding `1.2.3`. -/
def exLineTs123 : List Char :=
  "12:1.2.3:INFO:moca:handleCnuStats:45: <2:eth0>,<7,AA:BB:CC:DD:EE:FF>,<1> <Rx Good/Bad,Percent 100/ 2, 1.96%> blah per channel <0:4/-3/30/100,4/200><1:5/2/28/90,3/180>".data

/-- The corrected example line with the timestamp slot holding `...`. -/
def exLineTsDots : List Char :=
  "12:...:INFO:moca:handleCnuStats:45: <2:eth0>,<7,AA:BB:CC:DD:EE:FF>,<1> <Rx Good/Bad,Percent 100/ 2, 1.96%> blah per channel <0:4/-3/30/100,4/200><1:5/2/28/90,3/180>".data

/-- The corrected example line with the percent slot holding `1.2.3`. -/
def exLinePctLoose : List Char :=
  "12:1699999999.123:INFO:moca:handleCnuStats:45: <2:eth0>,<7,AA:BB:CC:DD:EE:FF>,<1> <Rx Good/Bad,Percent 100/ 2, 1.2.3%> blah per channel <0:4/-3/30/100,4/200><1:5/2/28/90,3/180>".data

/-- The corrected example line with zero whitespace after the `/` and after
the `,` inside the Rx tag. -/
def exLineRxNoWs : List Char :=
  "12:1699999999.123:INFO:moca:handleCnuStats:45: <2:eth0>,<7,AA:BB:CC:DD:EE:FF>,<1> <Rx Good/Bad,Percent 100/2,1.96%> blah per channel <0:4/-3/30/100,4/200><1:5/2/28/90,3/180>".data

/-! ## Claims -/

/-- C1, counterexample: the example line exactly as the specification prints
it — with `<7:AA:BB:CC:DD:EE:FF>` — does not match `line_regex`, whose second
angle-bracket group requires a comma (`<(\d+),([^>]+)>`); `parse_cnu_line`
rejects it, so it produces no rendered block at all. -/
theorem c1_spec_example_line_rejected : parse_cnu_line exLineSpec = none := by decide

/-- C1 (amended): with the second angle-bracket group written `<7,AA:...>`
as the grammar demands, the example line parses to the described record and
renders as the described block: MoCA Port `2 (eth0)`, CNU ID `7`, CNU MAC
`AA:BB:CC:DD:EE:FF`, Source `CNU`, Rx Good `100`, Rx Bad `2`, Rx % Bad
`1.96`, and exactly two channel lines with bandIndex `0` then `1`, the first
showing `Power: -3 dBm?`. -/
theorem c1_corrected_example_line_end_to_end :
    parse_cnu_line exLineFixed = some exRecord ∧
    renderRecord exRecord =
      [divider,
       "Timestamp:  1699999999.123".data,
       "Level:      INFO".data,
       "Module:     moca".data,
       "Function:   handleCnuStats".data,
       "Line:       45".data,
       "MoCA Port:  2 (eth0)".data,
       "CNU ID:     7".data,
       "CNU MAC:    AA:BB:CC:DD:EE:FF".data,
       "Source:     CNU".data,
       "Rx Good:    100".data,
       "Rx Bad:     2".data,
       "Rx % Bad:   1.96".data,
       "Channel Stats:".data,
       "  BandIndex: 0 | RX bits/sym: 4 | Power: -3 dBm? | SNR: 30 dB | RX PHY: 100 Mbps | TX bits/sym: 4 | TX PHY: 200 Mbps".data,
       "  BandIndex: 1 | RX bits/sym: 5 | Power: 2 dBm? | SNR: 28 dB | RX PHY: 90 Mbps | TX bits/sym: 3 | TX PHY: 180 Mbps".data,
       divider] := by
  exact ⟨by decide, by decide⟩

/-- C2: round trip — every synthetic line built from grammar-conforming
injected texts and `N ≥ 0` channel groups parses to the record whose fields
are exactly the injected substrings (the rxPower text, sign included, is
kept verbatim), with the channel list equal to the injected sequence, hence
of length `N` and in injection order. -/
theorem c2_round_trip (p : HeaderParts) (chs : List ChannelStat)
    (hp : GoodHeader p) (hchs : ∀ c ∈ chs, GoodChan c) :
    parse_cnu_line (mkLine p chs) = some (mkRecord p chs) ∧
    (mkRecord p chs).channels = chs ∧
    (mkRecord p chs).channels.length = chs.length :=
  ⟨parse_mkLine p chs hp hchs, rfl, rfl⟩

/-- Witness for C2 at the corrected example line's injected texts and its
two channel groups (the first carrying the negative rxPower text `-3`). -/
theorem c2_round_trip_witness :
    parse_cnu_line (mkLine exParts [exCh0, exCh1]) =
      some (mkRecord exParts [exCh0, exCh1]) ∧
    (mkRecord exParts [exCh0, exCh1]).channels = [exCh0, exCh1] ∧
    (mkRecord exParts [exCh0, exCh1]).channels.length = [exCh0, exCh1].length :=
  c2_round_trip exParts [exCh0, exCh1] exParts_good exChans_good

/-- C3: all-or-nothing — `parse_cnu_line` yields either a rejection or a
complete record, never a partial result; and deleting one character of a
required grammar token from the otherwise-matching example line (the colon
after the module, the comma between bracket groups, or the `<` of the Rx
tag) makes it reject the whole line. -/
theorem c3_all_or_nothing :
    (∀ line : List Char,
      parse_cnu_line line = none ∨ ∃ r, parse_cnu_line line = some r) ∧
    parse_cnu_line exLineDelColon = none ∧
    parse_cnu_line exLineDelComma = none ∧
    parse_cnu_line exLineDelLt = none := by
  refine ⟨?_, by decide, by decide, by decide⟩
  intro line
  cases h : parse_cnu_line line with
  | none => exact Or.inl rfl
  | some r => exact Or.inr ⟨r, rfl⟩

/-- C10: the timestamp and percent slots accept any non-empty run of digits
and dots (`[\d\.]+`), not only well-formed decimals: lines carrying `1.2.3`
or `...` in the timestamp slot, or `1.2.3` in the percent slot, are accepted
and the text is stored verbatim. -/
theorem c10_loose_numeric_class :
    (parse_cnu_line exLineTs123).map ParsedRecord.timestamp = some "1.2.3".data ∧
    (parse_cnu_line exLineTsDots).map ParsedRecord.timestamp = some "...".data ∧
    (parse_cnu_line exLinePctLoose).map ParsedRecord.rx_bad_percent = some "1.2.3".data := by
  exact ⟨by decide, by decide, by decide⟩

/-- An arbitrary non-matching input line. -/
def junkLine : List Char := "no cnu stats here".data

/-- A synthetic line identical to `mkLine` except that the Rx tag carries
zero whitespace between the `/` and the bad count and between the `,` and
the percent (the positions where `line_regex` demands `\s+`). -/
def mkLineRxNoWs (p : HeaderParts) (chs : List ChannelStat) : List Char :=
  p.ident ++ ':' :: p.ts ++ ':' :: p.lvl ++ ':' :: p.mdl ++ ':' :: p.fn ++ ':' :: p.srcline
    ++ ':' :: ' ' :: '<' :: p.port ++ ':' :: p.dev ++ '>' :: ',' :: '<' :: p.cnuId
    ++ ',' :: p.mac ++ '>' :: ',' :: '<' :: p.stype ++ '>' :: ' ' :: rxTagChars
    ++ ' ' :: p.good ++ '/' :: p.bad ++ ',' :: p.pct ++ '%' :: '>'
    :: ' ' :: p.filler ++ markerChars ++ ' ' :: renderChanGroups chs

/-- C5, counterexample: the example line with `<Rx Good/Bad,Percent
100/2,1.96%>` — zero whitespace after the `/` and after the `,` — is
rejected: `line_regex` demands `\s+` (one or more) at both positions. -/
theorem c5_zero_whitespace_line_rejected : parse_cnu_line exLineRxNoWs = none := by
  decide

/-- C5 (amended): the whitespace after the `/` and after the `,` in the Rx
tag is mandatory, not optional — every otherwise grammar-conforming line
with zero whitespace at those positions is rejected by `parse_cnu_line`. -/
theorem c5_rx_whitespace_mandatory (p : HeaderParts) (chs : List ChannelStat)
    (hp : GoodHeader p) : parse_cnu_line (mkLineRxNoWs p chs) = none := by
  have hspanIdent : ∀ ys, spanP isSpaceC (p.ident ++ ys) = ([], p.ident ++ ys) :=
    fun ys => spanP_none (headNotSat_append digit_not_space hp.ident_all hp.ident_ne ys)
  have hspanFn : ∀ ys, spanP isSpaceC (p.fn ++ ys) = ([], p.fn ++ ys) :=
    fun ys => spanP_none (headNotSat_append fnC_not_space hp.fn_all hp.fn_ne ys)
  have hspanSrc : ∀ ys, spanP isSpaceC (p.srcline ++ ys) = ([], p.srcline ++ ys) :=
    fun ys => spanP_none (headNotSat_append digit_not_space hp.src_all hp.src_ne ys)
  have hnsGood : ∀ ys, headNotSat isSpaceC (p.good ++ ys) :=
    headNotSat_append digit_not_space hp.good_all hp.good_ne
  have hnsBad : ∀ ys, headNotSat isSpaceC (p.bad ++ ys) :=
    headNotSat_append digit_not_space hp.bad_all hp.bad_ne
  simp only [parse_cnu_line, mkLineRxNoWs, List.cons_append, List.append_assoc,
    List.nil_append, List.singleton_append,
    hspanIdent, hspanFn, hspanSrc, spanP_none, spanP_one, many1P_one, many1P_none,
    many1P_eq hp.ident_all hp.ident_ne, many1P_eq hp.ts_all hp.ts_ne,
    many1P_eq hp.lvl_all hp.lvl_ne, many1P_eq hp.mdl_all hp.mdl_ne,
    many1P_eq hp.fn_all hp.fn_ne, many1P_eq hp.src_all hp.src_ne,
    many1P_eq hp.port_all hp.port_ne, many1P_eq hp.dev_all hp.dev_ne,
    many1P_eq hp.cnu_all hp.cnu_ne, many1P_eq hp.mac_all hp.mac_ne,
    many1P_eq hp.stype_all hp.stype_ne, many1P_eq hp.good_all hp.good_ne,
    hnsGood, hnsBad, rxTag_headNot,
    expectChar_eq, expectLit_eq, expectLit_gtcommalt,
    headNot_digit_colon, headNot_digit_slash, headNot_digit_comma, headNot_digit_gt,
    headNot_ts_colon, headNot_word_colon, headNot_fn_colon,
    headNot_dev_gt, headNot_space_colon, headNot_space_lt, spaceC_space]

/-- Witness for C5's amended statement at the example line's injected
texts. -/
theorem c5_rx_whitespace_mandatory_witness :
    parse_cnu_line (mkLineRxNoWs exParts [exCh0, exCh1]) = none :=
  c5_rx_whitespace_mandatory exParts [exCh0, exCh1] exParts_good

/-- C4, counterexample: the dividing line written by `main` does not consist
of 53 hyphens. -/
theorem c4_divider_not_53 : divider.length ≠ 53 := by decide

/-- C4 (amended): the dividing lines consist of exactly 51 hyphens, every
rendered block starts and ends with that divider, and consecutive matched
records' blocks are emitted adjacently, with no blank line (indeed nothing)
between one record's closing divider and the next record's opening one. -/
theorem c4_divider_and_adjacency :
    divider.length = 51 ∧ divider.all (fun c => c = '-') = true ∧
    (∀ r : ParsedRecord, (renderRecord r).head? = some divider ∧
      (renderRecord r).getLast? = some divider) ∧
    (∀ l1 l2 r1 r2, parse_cnu_line l1 = some r1 → parse_cnu_line l2 = some r2 →
      mainOutput [l1, l2] false = renderRecord r1 ++ renderRecord r2) := by
  refine ⟨by decide, by decide, ?_, ?_⟩
  · intro r
    constructor
    · rfl
    · unfold renderRecord
      rw [List.getLast?_concat]
  · intro l1 l2 r1 r2 h1 h2
    simp [mainOutput, h1, h2]

/-- Witness for C4's adjacency clause at two copies of the corrected example
line. -/
theorem c4_divider_and_adjacency_witness :
    parse_cnu_line exLineFixed = some exRecord ∧
    mainOutput [exLineFixed, exLineFixed] false =
      renderRecord exRecord ++ renderRecord exRecord :=
  ⟨by decide, c4_divider_and_adjacency.2.2.2 exLineFixed exLineFixed exRecord exRecord
    (by decide) (by decide)⟩

/-- C6: the `Source:` line of every rendered block is
`Source:     Micronode` exactly when the captured `source_type` text is
`0`, and `Source:     CNU` for every other captured value. -/
theorem c6_source_type_mapping (r : ParsedRecord) :
    renderSource r ∈ renderRecord r ∧
    (renderSource r = "Source:     Micronode".data ↔ r.source_type = ['0']) ∧
    (renderSource r = "Source:     CNU".data ↔ r.source_type ≠ ['0']) := by
  refine ⟨by simp [renderRecord], ⟨?_, ?_⟩, ⟨?_, ?_⟩⟩
  · intro he
    by_contra hne
    rw [renderSource, if_neg hne] at he
    exact absurd he (by decide)
  · intro h0
    rw [renderSource, if_pos h0]
    decide
  · intro he h0
    rw [renderSource, if_pos h0] at he
    exact absurd he (by decide)
  · intro hne
    rw [renderSource, if_neg hne]
    decide

/-- The matched part of the output is the one produced by the matching lines
alone, in input order. -/
theorem flatMap_filter_matched (lines : List (List Char)) :
    (lines.flatMap fun l => match parse_cnu_line l with
      | some r => renderRecord r
      | none => []) =
    ((lines.filter fun l => (parse_cnu_line l).isSome).flatMap fun l =>
      match parse_cnu_line l with
      | some r => renderRecord r
      | none => []) := by
  induction lines with
  | nil => rfl
  | cons l t ih =>
    cases h : parse_cnu_line l with
    | some r => simp [h, ih]
    | none => simp [h, ih]

/-- C7: order preservation — the output is the blocks of the matching lines,
in input order, followed (when debug is set) by the `NO MATCH:` lines of the
non-matching lines, in input order; both orders are restrictions of the one
shared input order, and the debug section lists the rejected lines by a
plain order-preserving map. -/
theorem c7_order_preservation (lines : List (List Char)) (debug : Bool) :
    (mainOutput lines debug =
      ((lines.filter fun l => (parse_cnu_line l).isSome).flatMap fun l =>
        match parse_cnu_line l with
        | some r => renderRecord r
        | none => []) ++
      (if debug then
        noMatchSection (lines.filter fun l => (parse_cnu_line l).isNone)
       else [])) ∧
    (∀ rejected : List (List Char), rejected ≠ [] →
      noMatchSection rejected =
        [] :: debugHeader :: rejected.map (fun l => "NO MATCH: ".data ++ l)) := by
  constructor
  · unfold mainOutput
    rw [flatMap_filter_matched]
  · intro rejected h
    rw [noMatchSection, if_neg h]

/-- Witness for C7's debug-section clause at one concrete rejected line. -/
theorem c7_order_preservation_witness :
    ([junkLine] : List (List Char)) ≠ [] ∧
    noMatchSection [junkLine] =
      [] :: debugHeader :: [junkLine].map (fun l => "NO MATCH: ".data ++ l) :=
  ⟨by decide, (c7_order_preservation [] false).2 [junkLine] (by decide)⟩

/-- C8: zero-channel case — a grammar-conforming header with an empty
channel-data segment parses to a record with an empty channel list, and its
rendered block has the `Channel Stats:` label immediately followed by the
closing divider, with no channel lines in between. -/
theorem c8_zero_channels (p : HeaderParts) (hp : GoodHeader p) :
    parse_cnu_line (mkLine p []) = some (mkRecord p []) ∧
    (mkRecord p []).channels = [] ∧
    renderRecord (mkRecord p []) =
      [divider,
       "Timestamp:  ".data ++ p.ts,
       "Level:      ".data ++ p.lvl,
       "Module:     ".data ++ p.mdl,
       "Function:   ".data ++ p.fn,
       "Line:       ".data ++ p.srcline,
       "MoCA Port:  ".data ++ p.port ++ " (".data ++ p.dev ++ ")".data,
       "CNU ID:     ".data ++ p.cnuId,
       "CNU MAC:    ".data ++ p.mac,
       renderSource (mkRecord p []),
       "Rx Good:    ".data ++ p.good,
       "Rx Bad:     ".data ++ p.bad,
       "Rx % Bad:   ".data ++ p.pct,
       "Channel Stats:".data,
       divider] := by
  refine ⟨parse_mkLine p [] hp (by intro c hc; cases hc), rfl, ?_⟩
  simp [renderRecord, mkRecord]

/-- Witness for C8 at the example line's injected texts with zero channel
groups. -/
theorem c8_zero_channels_witness :
    parse_cnu_line (mkLine exParts []) = some (mkRecord exParts []) ∧
    (mkRecord exParts []).channels = [] :=
  ⟨(c8_zero_channels exParts exParts_good).1, (c8_zero_channels exParts exParts_good).2.1⟩

/-- When every input line is rejected, the matched part of the output is
empty. -/
theorem flatMap_matched_nil : ∀ (lines : List (List Char)),
    (∀ l ∈ lines, parse_cnu_line l = none) →
    (lines.flatMap fun l => match parse_cnu_line l with
      | some r => renderRecord r
      | none => []) = [] := by
  intro lines
  induction lines with
  | nil => intro _; rfl
  | cons l t ih =>
    intro h
    have hl := h l (List.mem_cons_self l t)
    simp [hl, ih (fun x hx => h x (List.mem_cons_of_mem l hx))]

/-- When every input line matches, no line is collected for the debug
section. -/
theorem filter_isNone_nil : ∀ (lines : List (List Char)),
    (∀ l ∈ lines, (parse_cnu_line l).isSome = true) →
    (lines.filter fun l => (parse_cnu_line l).isNone) = [] := by
  intro lines
  induction lines with
  | nil => intro _; rfl
  | cons l t ih =>
    intro h
    have hl := h l (List.mem_cons_self l t)
    have ht := ih (fun x hx => h x (List.mem_cons_of_mem l hx))
    cases hp : parse_cnu_line l with
    | none => rw [hp] at hl; exact absurd hl (by decide)
    | some r => simp [List.filter_cons, hp, ht]

/-- C9: debug suppression — without the debug flag the output is the matched
blocks alone, whatever the input; in particular it is empty when every line
is rejected (no debug header, no `NO MATCH:` lines); and with the debug flag
set but no rejection, the debug section is omitted as well. -/
theorem c9_debug_suppression (lines : List (List Char)) :
    mainOutput lines false =
      (lines.flatMap fun l => match parse_cnu_line l with
        | some r => renderRecord r
        | none => []) ∧
    ((∀ l ∈ lines, parse_cnu_line l = none) → mainOutput lines false = []) ∧
    ((∀ l ∈ lines, (parse_cnu_line l).isSome = true) → mainOutput lines true =
      (lines.flatMap fun l => match parse_cnu_line l with
        | some r => renderRecord r
        | none => [])) := by
  refine ⟨by simp [mainOutput], ?_, ?_⟩
  · intro h
    simp [mainOutput, flatMap_matched_nil lines h]
  · intro h
    simp [mainOutput, filter_isNone_nil lines h, noMatchSection]

/-- Witness for C9: a run over one rejected line emits nothing without the
debug flag; a run over one matched line with the debug flag emits only its
block. -/
theorem c9_debug_suppression_witness :
    (∀ l ∈ [junkLine], parse_cnu_line l = none) ∧
    mainOutput [junkLine] false = [] ∧
    (∀ l ∈ [exLineFixed], (parse_cnu_line l).isSome = true) ∧
    mainOutput [exLineFixed] true =
      ([exLineFixed].flatMap fun l => match parse_cnu_line l with
        | some r => renderRecord r
        | none => []) :=
  ⟨by decide, (c9_debug_suppression [junkLine]).2.1 (by decide),
   by decide, (c9_debug_suppression [exLineFixed]).2.2 (by decide)⟩

end MicroManager
